import Mathlib

/-!
Verification of the MAME internal graphics viewer (`src/frontend/mame/ui/viewgfx.cpp`).

Shallow embedding: each definition below transcribes one function (or a
self-contained block of one function) of the source file; machine integers are
modelled as `Nat`/`Int` with explicit truncation where the C type can overflow
on the reachable inputs.  Theorems settle the frozen claims about the viewer.
-/

set_option maxHeartbeats 1000000

namespace Viewgfx

/-! ### Orientation transform

From `gfxset_draw_item` (and identically `gfxset_draw_save_item`): given the
gfx element's intrinsic `width`/`height` and the 3-bit orientation code
(`ORIENTATION_FLIP_X = 1`, `ORIENTATION_FLIP_Y = 2`, `ORIENTATION_SWAP_XY = 4`),
map a cell-local coordinate `(x, y)` to the source-data coordinate
`(effx, effy)`.  In the source the coordinates are C `int`s that stay in range,
so `Nat` subtraction agrees with the C arithmetic on every in-range input. -/

def ORIENTATION_FLIP_X : Nat := 1
def ORIENTATION_FLIP_Y : Nat := 2
def ORIENTATION_SWAP_XY : Nat := 4

/-- Coordinate transform of `gfxset_draw_item`: if swap-axes is clear, flips
measure against the source width/height; if swap-axes is set, the horizontal
flip measures against the source height, the vertical flip against the source
width, and the axes are exchanged last. -/
def gfxset_draw_item_transform (width height rotate x y : Nat) : Nat × Nat :=
  if rotate &&& ORIENTATION_SWAP_XY = 0 then
    (if rotate &&& ORIENTATION_FLIP_X ≠ 0 then width - 1 - x else x,
     if rotate &&& ORIENTATION_FLIP_Y ≠ 0 then height - 1 - y else y)
  else
    let effx := if rotate &&& ORIENTATION_FLIP_X ≠ 0 then height - 1 - x else x
    let effy := if rotate &&& ORIENTATION_FLIP_Y ≠ 0 then width - 1 - y else y
    (effy, effx)

/-- Width of the (possibly axis-swapped) cell holding a `width × height`
element, as computed at the top of `gfxset_draw_item`. -/
def cellW (width height rotate : Nat) : Nat :=
  if rotate &&& ORIENTATION_SWAP_XY ≠ 0 then height else width

/-- Height of the (possibly axis-swapped) cell. -/
def cellH (width height rotate : Nat) : Nat :=
  if rotate &&& ORIENTATION_SWAP_XY ≠ 0 then width else height

/-- Round trip of the claim: map a cell-local coordinate to a source
coordinate, then map that source coordinate back through the transform with
the same code, the second application parameterised by the gfx whose cell
domain is the first map's source domain (dimensions `cellW × cellH`). -/
def orientationRoundTrip (width height rotate x y : Nat) : Nat × Nat :=
  let p := gfxset_draw_item_transform width height rotate x y
  gfxset_draw_item_transform (cellW width height rotate) (cellH width height rotate) rotate p.1 p.2

/-! ### RasterCache ensure

The reallocation step shared by `gfxset_update_bitmap` (lines 1084–1097) and
`tilemap_update_bitmap` (lines 1669–1682): reallocate the bitmap and texture,
and force the dirty flag, exactly when no valid bitmap or texture exists or
the stored dimensions differ from the requested ones. -/

structure RasterCache where
  valid : Bool
  width : Nat
  height : Nat
  hasTexture : Bool
  dirty : Bool
deriving DecidableEq, Repr

/-- The ensure step: returns the updated cache and whether it reallocated. -/
def update_bitmap_ensure (c : RasterCache) (w h : Nat) : RasterCache × Bool :=
  if !c.valid || !c.hasTexture || c.width ≠ w || c.height ≠ h then
    ({ valid := true, width := w, height := h, hasTexture := true, dirty := true }, true)
  else
    (c, false)

/-! ### Palette viewer navigation (`palette_handle_keys`)

A palette device exposes an entry count and an indirect-entry count; the
machine is the ordered list of palette devices.  `columns` is a C `uint8_t`
(hence the `% 256` on doubling); `offset` and the totals are C `int`s, the
offset modelled as `Int` since it goes negative before the final clamp. -/

structure PalDevice where
  entries : Nat
  indirectEntries : Nat
deriving DecidableEq, Repr

structure PalState where
  devindex : Nat
  which : Bool
  columns : Nat
  offset : Int
deriving DecidableEq, Repr

/-- One frame's worth of pressed navigation keys, as polled by
`palette_handle_keys` (each key is an independent `if`). -/
structure PalInput where
  zoomOut : Bool
  zoomIn : Bool
  prevGroup : Bool
  nextGroup : Bool
  up : Bool
  down : Bool
  pageUp : Bool
  pageDown : Bool
  home : Bool
  endKey : Bool
deriving DecidableEq, Repr

/-- The palette device the `state.palette.interface` pointer refers to. -/
def palDev (m : List PalDevice) (i : Nat) : PalDevice :=
  m.getD i ⟨0, 0⟩

/-- Zoom handling: halve on zoom-out, double on zoom-in (`uint8_t` store). -/
def palZoom (cols : Nat) (inp : PalInput) : Nat :=
  let c := if inp.zoomOut then cols / 2 else cols
  if inp.zoomIn then c * 2 % 256 else c

/-- Column clamp: `if (columns <= 4) columns = 4; if (columns > 64) columns = 64;`. -/
def palClampCols (cols : Nat) : Nat :=
  let c := if cols ≤ 4 then 4 else cols
  if c > 64 then 64 else c

/-- Subset/device cycling on the bracket keys: returns the new
`(devindex, which)` pair.  Crossing a device boundary backwards selects the
indirect subset when the new device has one; forwards resets to pens. -/
def palGroup (m : List PalDevice) (devindex : Nat) (which : Bool) (inp : PalInput) :
    Nat × Bool :=
  let p :=
    if inp.prevGroup then
      if which then (devindex, false)
      else if devindex > 0 then
        (devindex - 1, decide ((palDev m (devindex - 1)).indirectEntries > 0))
      else (devindex, which)
    else (devindex, which)
  if inp.nextGroup then
    if !p.2 && decide ((palDev m p.1).indirectEntries > 0) then (p.1, true)
    else if p.1 < m.length - 1 then (p.1 + 1, false)
    else p
  else p

/-- Total number of entries of the selected subset. -/
def palTotal (m : List PalDevice) (devindex : Nat) (which : Bool) : Nat :=
  if which then (palDev m devindex).indirectEntries else (palDev m devindex).entries

/-- Offset mutation for the navigation keys, in source order
(up, down, page-up, page-down, home, end). -/
def palNav (offset : Int) (rowcount total : Nat) (inp : PalInput) : Int :=
  let screencount : Int := (rowcount : Int) * (rowcount : Int)
  let o := if inp.up then offset - (rowcount : Int) else offset
  let o := if inp.down then o + (rowcount : Int) else o
  let o := if inp.pageUp then o - screencount else o
  let o := if inp.pageDown then o + screencount else o
  let o := if inp.home then 0 else o
  if inp.endKey then (total : Int) else o

/-- The final two range clamps of `palette_handle_keys`. -/
def palClampOffset (offset : Int) (rowcount total : Nat) : Int :=
  let top : Int := (((total + rowcount - 1) / rowcount) * rowcount : Nat)
  let screencount : Int := (rowcount : Int) * (rowcount : Int)
  let o := if offset + screencount > top then top - screencount else offset
  if o < 0 then 0 else o

/-- `palette_handle_keys`, one invocation (one frame): zoom, column clamp,
subset/device cycling, navigation, offset clamp, in source order. -/
def palette_handle_keys (m : List PalDevice) (s : PalState) (inp : PalInput) : PalState :=
  let cols := palClampCols (palZoom s.columns inp)
  let g := palGroup m s.devindex s.which inp
  let total := palTotal m g.1 g.2
  let o := palNav s.offset cols total inp
  { devindex := g.1, which := g.2, columns := cols, offset := palClampOffset o cols total }

/-! ### Graphics-set layout (`gfxset_handler`, lines 823–837)

Starting from the requested column count, decrement until the integer pixel
scale `(cellboxwidth / xcells) / cellxpix` is nonzero; then floor the scale at
one.  `W` is the cell box width in pixels, `S` the per-cell source width
(`cellxpix`, i.e. 1 + the possibly swapped gfx width). -/

def gfxShrinkAux (W S : Nat) : Nat → Nat × Nat
  | 0 => (0, 0)
  | 1 => (1, 0)
  | x + 2 =>
    if W / (x + 2) / S ≠ 0 then (x + 2, W / (x + 2) / S)
    else gfxShrinkAux W S (x + 1)

/-- The `(finalColumns, pixelScale)` pair produced by the shrink loop followed
by `pixelscale = std::max(1, pixelscale)`. -/
def gfxsetLayout (W C S : Nat) : Nat × Nat :=
  let r := gfxShrinkAux W S C
  (r.1, max 1 r.2)

/-! ### Tilemap panning (`tilemap_handle_keys`, lines 1604–1649)

The four direction keys add or subtract the step from `xoffs`/`yoffs`,
with the axis and sign chosen from the orientation code; afterwards both
offsets are normalised into `[0, mapDimension)` by repeatedly adding or
subtracting the dimension.  The two `while` loops are modelled with a fuel
argument that is always sufficient when the dimension is positive. -/

structure TmState where
  xoffs : Int
  yoffs : Int
deriving DecidableEq, Repr

inductive TmKey where
  | up
  | down
  | left
  | right
deriving DecidableEq, Repr

/-- `while (offs < 0) offs += dim;` -/
def addUntilNonneg : Nat → Int → Int → Int
  | 0, x, _ => x
  | f + 1, x, d => if x < 0 then addUntilNonneg f (x + d) d else x

/-- `while (offs >= dim) offs -= dim;` -/
def subUntilBelow : Nat → Int → Int → Int
  | 0, x, _ => x
  | f + 1, x, d => if d ≤ x then subUntilBelow f (x - d) d else x

/-- The combined wrap clamp at the end of `tilemap_handle_keys`; the fuel
bounds below suffice for any positive dimension. -/
def tilemapWrap (x d : Int) : Int :=
  let y := addUntilNonneg (x.natAbs + 1) x d
  subUntilBelow (y.natAbs + 1) y d

/-- One direction-key press of `tilemap_handle_keys` with the given
orientation code, step, and map dimensions (delta, then wrap both offsets). -/
def tilemap_handle_key (rotate : Nat) (step mw mh : Int) (k : TmKey) (s : TmState) :
    TmState :=
  let s1 :=
    match k with
    | .up =>
      if rotate &&& ORIENTATION_SWAP_XY ≠ 0 then
        { s with xoffs := s.xoffs - (if rotate &&& ORIENTATION_FLIP_Y ≠ 0 then -step else step) }
      else
        { s with yoffs := s.yoffs - (if rotate &&& ORIENTATION_FLIP_Y ≠ 0 then -step else step) }
    | .down =>
      if rotate &&& ORIENTATION_SWAP_XY ≠ 0 then
        { s with xoffs := s.xoffs + (if rotate &&& ORIENTATION_FLIP_Y ≠ 0 then -step else step) }
      else
        { s with yoffs := s.yoffs + (if rotate &&& ORIENTATION_FLIP_Y ≠ 0 then -step else step) }
    | .left =>
      if rotate &&& ORIENTATION_SWAP_XY ≠ 0 then
        { s with yoffs := s.yoffs - (if rotate &&& ORIENTATION_FLIP_X ≠ 0 then -step else step) }
      else
        { s with xoffs := s.xoffs - (if rotate &&& ORIENTATION_FLIP_X ≠ 0 then -step else step) }
    | .right =>
      if rotate &&& ORIENTATION_SWAP_XY ≠ 0 then
        { s with yoffs := s.yoffs + (if rotate &&& ORIENTATION_FLIP_X ≠ 0 then -step else step) }
      else
        { s with xoffs := s.xoffs + (if rotate &&& ORIENTATION_FLIP_X ≠ 0 then -step else step) }
  { xoffs := tilemapWrap s1.xoffs mw, yoffs := tilemapWrap s1.yoffs mh }

/-- Iterated application (n key repeats). -/
def applyN (f : α → α) : Nat → α → α
  | 0, s => s
  | n + 1, s => applyN f n (f s)

/-! ### Export pipeline (`gfxset_handle_save`, `palette_handle_save`)

Machine-side data consumed by the save loops: a gfx element exposes its
dimensions, element count, color count, and its palette's indirect-entry
count; a decoder device is its ordered list of sets.  The viewer state
carries the shared RasterCache fields (bitmap dimensions, validity, texture,
dirty flag), the palette and gfx navigation state, and the per-device,
per-set selected colors.  The save loops rasterize into a function-local
scratch bitmap (`bitmap_rgb32 bitmap;` in `gfxset_handle_save`, a fresh
`new bitmap_rgb32` in `palette_handle_save`), never into the state's bitmap.
File opens are abstracted by an oracle `openOk` indexed by the sequential
`open_next_file` call number. -/

structure GfxElem where
  width : Nat
  height : Nat
  elements : Nat
  colors : Nat
  granularity : Nat
  palIndirectEntries : Nat
  palEntries : Nat
deriving DecidableEq, Repr

structure GfxDevice where
  sets : List GfxElem
deriving DecidableEq, Repr

structure UiState where
  bitmapValid : Bool
  bitmapWidth : Nat
  bitmapHeight : Nat
  hasTexture : Bool
  bitmapDirty : Bool
  palDevindex : Nat
  palWhich : Nat
  palColumns : Nat
  palOffset : Int
  gfxDevindex : Nat
  gfxSet : Nat
  gfxColors : List (List Int)
  tilemapWhich : Nat
deriving DecidableEq, Repr

/-- `info.color[set] = color` for device `dev`. -/
def setGfxColor (cs : List (List Int)) (dev set : Nat) (color : Int) : List (List Int) :=
  cs.set dev ((cs.getD dev []).set set color)

/-- Inner color loop of `gfxset_handle_save`: for each color, update the
navigation state (`state.gfxset.set`, `info.color[set]`), rasterize into the
scratch bitmap, reset the palette selection to device 0 / pens, then attempt
to open and save the file.  Returns the final state, the next open counter,
the attempted instances `(dev, set, color)`, and the successfully saved
(and therefore reported) instances. -/
def gfxsaveColors (dev set : Nat) (openOk : Nat → Bool) :
    List Nat → UiState → Nat → UiState × Nat × List (Nat × Nat × Nat) × List (Nat × Nat × Nat)
  | [], s, k => (s, k, [], [])
  | c :: cs, s, k =>
    let s1 := { s with gfxSet := set,
                       gfxColors := setGfxColor s.gfxColors dev set (c : Int),
                       palWhich := 0, palDevindex := 0 }
    let ok := openOk k
    let r := gfxsaveColors dev set openOk cs s1 (k + 1)
    (r.1, r.2.1, (dev, set, c) :: r.2.2.1,
     if ok then (dev, set, c) :: r.2.2.2 else r.2.2.2)

/-- Outer set loop of `gfxset_handle_save`: cap the color count at 32, switch
the palette subset to indirect when the set's palette has indirect entries,
then run the color loop. -/
def gfxsaveSets (m : List GfxDevice) (dev : Nat) (openOk : Nat → Bool) :
    List Nat → UiState → Nat → UiState × Nat × List (Nat × Nat × Nat) × List (Nat × Nat × Nat)
  | [], s, k => (s, k, [], [])
  | set :: sets, s, k =>
    let g := ((m.getD dev ⟨[]⟩).sets).getD set ⟨0, 0, 0, 0, 0, 0, 0⟩
    let maxcolors := if g.colors > 32 then 32 else g.colors
    let s1 := if g.palIndirectEntries > 0 then { s with palWhich := 1 } else s
    let r1 := gfxsaveColors dev set openOk (List.range maxcolors) s1 k
    let r2 := gfxsaveSets m dev openOk sets r1.1 r1.2.1
    (r2.1, r2.2.1, r1.2.2.1 ++ r2.2.2.1, r1.2.2.2 ++ r2.2.2.2)

/-- `gfxset_handle_save`: iterate the sets of the *currently selected* device
(`dev = state.gfxset.devindex`).  Returns the final state, the attempted
instances and the saved/reported instances. -/
def gfxset_handle_save (m : List GfxDevice) (s : UiState) (openOk : Nat → Bool) :
    UiState × List (Nat × Nat × Nat) × List (Nat × Nat × Nat) :=
  let dev := s.gfxDevindex
  let setcount := (m.getD dev ⟨[]⟩).sets.length
  let r := gfxsaveSets m dev openOk (List.range setcount) s 0
  (r.1, r.2.2.1, r.2.2.2)

/-- The instance list the claim describes: every `(device, set, color)` triple
over *all* enumerated decoder devices, colors capped at 32.  (Spec-side
definition, for comparison with the source-side `gfxset_handle_save`.) -/
def claimedGfxInstances (m : List GfxDevice) : List (Nat × Nat × Nat) :=
  (List.range m.length).flatMap fun d =>
    (List.range (m.getD d ⟨[]⟩).sets.length).flatMap fun set =>
      (List.range (min ((m.getD d ⟨[]⟩).sets.getD set ⟨0, 0, 0, 0, 0, 0, 0⟩).colors 32)).map
        fun c => (d, set, c)

/-- The instance list the code actually walks: the sets of one device only. -/
def currentDeviceGfxInstances (m : List GfxDevice) (dev : Nat) : List (Nat × Nat × Nat) :=
  (List.range (m.getD dev ⟨[]⟩).sets.length).flatMap fun set =>
    (List.range (min ((m.getD dev ⟨[]⟩).sets.getD set ⟨0, 0, 0, 0, 0, 0, 0⟩).colors 32)).map
      fun c => (dev, set, c)

/-- Inner device loop of `palette_handle_save` for one subset pass `w`:
set `state.palette.devindex`, open the text file (one oracle index), and on
success also open the png file (a second oracle index) and report.  Returns
the final state, the next open counter, the attempted `(subset, device)`
instances, and the reported (text-open succeeded) instances. -/
def palsaveDevices (w : Nat) (openOk : Nat → Bool) :
    List Nat → UiState → Nat → UiState × Nat × List (Nat × Nat) × List (Nat × Nat)
  | [], s, k => (s, k, [], [])
  | p :: ps, s, k =>
    let s1 := { s with palDevindex := p }
    let okTxt := openOk k
    let k1 := if okTxt then k + 2 else k + 1
    let r := palsaveDevices w openOk ps s1 k1
    (r.1, r.2.1, (w, p) :: r.2.2.1, (if okTxt then [(w, p)] else []) ++ r.2.2.2)

/-- `palette_handle_save`: pass `w = 0` over all devices with the pens subset,
then, when the palette the interface pointer ended up on has indirect
entries, a second pass with the indirect subset; otherwise break.  Returns
the final state, the attempted instances, and the reported instances. -/
def palette_handle_save (m : List PalDevice) (s : UiState) (openOk : Nat → Bool) :
    UiState × List (Nat × Nat) × List (Nat × Nat) :=
  let s0 := { s with palWhich := 0 }
  let r1 := palsaveDevices 0 openOk (List.range m.length) s0 0
  let cur1 := if m.length = 0 then s.palDevindex else m.length - 1
  if (palDev m cur1).indirectEntries > 0 then
    let s2 := { r1.1 with palWhich := 1 }
    let r3 := palsaveDevices 1 openOk (List.range m.length) s2 r1.2.1
    (r3.1, r1.2.2.1 ++ r3.2.2.1, r1.2.2.2 ++ r3.2.2.2)
  else
    (r1.1, r1.2.2.1, r1.2.2.2)

/-- Loop of `tilemap_handle_save` (lines 1704–1736): for each enumerated
tilemap, attempt to open the output file and, on success, write the map's
composited pixmap and report.  No viewer state is mutated.  Returns the
attempted map indices and the saved/reported ones. -/
def tilemapSaveLoop (openOk : Nat → Bool) : List Nat → Nat → List Nat × List Nat
  | [], _ => ([], [])
  | mp :: mps, k =>
    let ok := openOk k
    let r := tilemapSaveLoop openOk mps (k + 1)
    (mp :: r.1, if ok then mp :: r.2 else r.2)

/-- `tilemap_handle_save`: walk every tilemap of the machine. -/
def tilemap_handle_save (tilemapCount : Nat) (openOk : Nat → Bool) :
    List Nat × List Nat :=
  tilemapSaveLoop openOk (List.range tilemapCount) 0

/-! ### Snapshot filename template (`open_next_file`, lines 1744–1826)

The template-processing half of `open_next_file`: strip the extension from
the configured snapshot name, look for the device-substitution token `%d_`;
a second occurrence reverts to the default template `%g/%i`; a single
occurrence substitutes the named mounted image device (or falls back to the
default when no such device has an image mounted).  Strings are modelled as
`List Char`; the `fatalerror` path is `none`. -/

/-- `pat` matches `cs` at its head. -/
def matchesAt : List Char → List Char → Bool
  | _, [] => true
  | [], _ :: _ => false
  | c :: cs, p :: ps => c = p && matchesAt cs ps

/-- `std::string::find(pat)` on the tail list: index of the first match. -/
def findSub (pat : List Char) : List Char → Option Nat
  | [] => if matchesAt [] pat then some 0 else none
  | c :: rest =>
    if matchesAt (c :: rest) pat then some 0 else (findSub pat rest).map (· + 1)

/-- `std::string::find(pat, start)`. -/
def findFrom (pat : List Char) (cs : List Char) (start : Nat) : Option Nat :=
  (findSub pat (cs.drop start)).map (· + start)

/-- `std::string::find_last_of(ch)`. -/
def lastIdxOf (ch : Char) : List Char → Option Nat
  | [] => none
  | c :: rest =>
    match lastIdxOf ch rest with
    | some i => some (i + 1)
    | none => if c = ch then some 0 else none

/-- `s.substr(0, s.find_last_of('.'))` — the whole string when there is no
dot (`npos`). -/
def stripExtension (cs : List Char) : List Char :=
  match lastIdxOf '.' cs with
  | some i => cs.take i
  | none => cs

/-- `strreplace(s, pat, to)`: replace every (non-overlapping, left-to-right)
occurrence; the fuel is the string length, consumed one character per step. -/
def replaceAllAux (pat tgt : List Char) : Nat → List Char → List Char
  | 0, cs => cs
  | _ + 1, [] => []
  | f + 1, c :: cs =>
    if pat ≠ [] && matchesAt (c :: cs) pat then
      tgt ++ replaceAllAux pat tgt f (cs.drop (pat.length - 1))
    else
      c :: replaceAllAux pat tgt f cs

def replaceAll (cs pat tgt : List Char) : List Char :=
  replaceAllAux pat tgt cs.length cs

/-- `snapstr.erase(pos, 3)`. -/
def eraseAt3 (cs : List Char) (pos : Nat) : List Char :=
  cs.take pos ++ cs.drop (pos + 3)

/-- A mounted-image device: its brief instance name and, if an image is
mounted, the image's basename. -/
structure ImageDevice where
  briefName : List Char
  mounted : Option (List Char)
deriving DecidableEq, Repr

/-- The `%d_` token. -/
def snapDevTok : List Char := ['%', 'd', '_']

/-- The default snapshot template `%g/%i`. -/
def defaultSnapTemplate : List Char := ['%', 'g', '/', '%', 'i']

/-- The `image_interface_enumerator` loop: for each device whose brief name
matches, with an image mounted, substitute the stripped image basename for
the device name and erase the `%d_` token. -/
def deviceSubstLoop (devname : List Char) (pos : Nat) :
    List ImageDevice → List Char → Bool → List Char × Bool
  | [], acc, found => (acc, found)
  | d :: ds, acc, found =>
    if d.briefName = devname then
      match d.mounted with
      | some base =>
        deviceSubstLoop devname pos ds
          (eraseAt3 (replaceAll acc devname (stripExtension base)) pos) true
      | none => deviceSubstLoop devname pos ds acc found
    else
      deviceSubstLoop devname pos ds acc found

/-- Template processing of `open_next_file`, up to (and excluding) the
extension append and `%g`/`%i` substitution: `none` is the `fatalerror`
path, `some` the resulting template. -/
def open_next_file_template (snapname : List Char) (devices : List ImageDevice) :
    Option (List Char) :=
  let s0 := if snapname = [] then defaultSnapTemplate else snapname
  let s1 := stripExtension s0
  match findSub snapDevTok s1 with
  | none => some s1
  | some pos =>
    match findFrom snapDevTok s1 (pos + 3) with
    | some _ => some defaultSnapTemplate
    | none =>
      let e1 := findFrom ['/'] s1 (pos + 3)
      let e2 := findFrom ['%'] s1 (pos + 3)
      let e :=
        match e1, e2 with
        | some a, some b => min a b
        | some a, none => a
        | none, some b => b
        | none, none => s1.length
      if e < pos + 3 then none
      else
        let devname := (s1.drop (pos + 3)).take (e - pos - 3)
        let r := deviceSubstLoop devname pos devices s1 false
        if r.2 then some r.1 else some defaultSnapTemplate

/-! ### Session-start enumeration (`ui_gfx_count_devices`, lines 233–246) and
the selected-color clamp (`gfxset_handle_keys`, lines 1055–1059) -/

/-- Per-slot data `ui_gfx_count_devices` reads: whether the gfx element has
an embedded palette, its color count, and its granularity. -/
structure GfxSlot where
  hasPalette : Bool
  colors : Nat
  granularity : Nat
deriving DecidableEq, Repr

/-- The recorded `color_count[slot]`: the element's own color count when it
has an embedded palette, otherwise the default device palette's entry count
divided by the granularity, forced to 1 when that quotient is zero. -/
def count_devices_color_count (defaultEntries : Nat) (g : GfxSlot) : Nat :=
  if g.hasPalette then g.colors
  else
    let c := defaultEntries / g.granularity
    if c = 0 then 1 else c

/-- The selected-color clamp of `gfxset_handle_keys`: pull down to
`color_count - 1`, then up to 0. -/
def gfxset_clamp_color (color : Int) (colorCount : Int) : Int :=
  let c := if color ≥ colorCount then colorCount - 1 else color
  if c < 0 then 0 else c

/-- Net x-delta of one key press, before wrapping (the same expression the
key handler adds). -/
def tmDeltaX (rotate : Nat) (step : Int) : TmKey → Int
  | .up =>
    if rotate &&& ORIENTATION_SWAP_XY ≠ 0 then
      -(if rotate &&& ORIENTATION_FLIP_Y ≠ 0 then -step else step)
    else 0
  | .down =>
    if rotate &&& ORIENTATION_SWAP_XY ≠ 0 then
      (if rotate &&& ORIENTATION_FLIP_Y ≠ 0 then -step else step)
    else 0
  | .left =>
    if rotate &&& ORIENTATION_SWAP_XY ≠ 0 then 0
    else -(if rotate &&& ORIENTATION_FLIP_X ≠ 0 then -step else step)
  | .right =>
    if rotate &&& ORIENTATION_SWAP_XY ≠ 0 then 0
    else (if rotate &&& ORIENTATION_FLIP_X ≠ 0 then -step else step)

/-- Net y-delta of one key press, before wrapping. -/
def tmDeltaY (rotate : Nat) (step : Int) : TmKey → Int
  | .up =>
    if rotate &&& ORIENTATION_SWAP_XY ≠ 0 then 0
    else -(if rotate &&& ORIENTATION_FLIP_Y ≠ 0 then -step else step)
  | .down =>
    if rotate &&& ORIENTATION_SWAP_XY ≠ 0 then 0
    else (if rotate &&& ORIENTATION_FLIP_Y ≠ 0 then -step else step)
  | .left =>
    if rotate &&& ORIENTATION_SWAP_XY ≠ 0 then
      -(if rotate &&& ORIENTATION_FLIP_X ≠ 0 then -step else step)
    else 0
  | .right =>
    if rotate &&& ORIENTATION_SWAP_XY ≠ 0 then
      (if rotate &&& ORIENTATION_FLIP_X ≠ 0 then -step else step)
    else 0

/-- The live-view state an export must not disturb according to the claim's
true half: the shared RasterCache fields (bitmap validity, dimensions,
texture, dirty flag), the tilemap selection, and the gfx device index. -/
def liveCacheView (s : UiState) : Bool × Nat × Nat × Bool × Bool × Nat × Nat :=
  (s.bitmapValid, s.bitmapWidth, s.bitmapHeight, s.hasTexture, s.bitmapDirty,
   s.tilemapWhich, s.gfxDevindex)

/-- Concrete gfx element for the counterexamples: 8×8, 4 elements, single
color, granularity 1, no indirect entries, 2 palette entries. -/
def cexGfxElem : GfxElem := ⟨8, 8, 4, 1, 1, 0, 2⟩

/-- Concrete gfx element with two colors, for the failed-open counterexample. -/
def cexGfxElem2 : GfxElem := ⟨8, 8, 4, 2, 1, 0, 2⟩

/-- Two decoder devices with one single-color set each. -/
def cexGfxMachine : List GfxDevice := [⟨[cexGfxElem]⟩, ⟨[cexGfxElem]⟩]

/-- Concrete viewer state for the counterexamples: device 0 selected, set 0,
palette device 3 with the pens subset, tilemap 1 selected, a valid 10×20
live bitmap with a texture, not dirty. -/
def cexUiState : UiState :=
  ⟨true, 10, 20, true, false, 3, 0, 16, 0, 0, 0, [[0], [0]], 1⟩

/-! ## Theorems -/

/-! ### Tilemap wrap lemmas (for C7) -/

/-- Adding the dimension preserves the offset modulo the dimension. -/
theorem addUntilNonneg_modeq (d : Int) :
    ∀ (f : Nat) (x : Int), addUntilNonneg f x d ≡ x [ZMOD d] := by
  intro f
  induction f with
  | zero => intro x; rfl
  | succ f ih =>
    intro x
    simp only [addUntilNonneg]
    split_ifs with hx
    · exact (ih (x + d)).trans (Int.modEq_iff_dvd.mpr ⟨-1, by ring⟩)
    · rfl

/-- Subtracting the dimension preserves the offset modulo the dimension. -/
theorem subUntilBelow_modeq (d : Int) :
    ∀ (f : Nat) (x : Int), subUntilBelow f x d ≡ x [ZMOD d] := by
  intro f
  induction f with
  | zero => intro x; rfl
  | succ f ih =>
    intro x
    simp only [subUntilBelow]
    split_ifs with hx
    · exact (ih (x - d)).trans (Int.modEq_iff_dvd.mpr ⟨1, by ring⟩)
    · rfl

/-- The wrap clamp preserves the offset modulo the dimension. -/
theorem tilemapWrap_modeq (x d : Int) : tilemapWrap x d ≡ x [ZMOD d] :=
  (subUntilBelow_modeq d _ _).trans (addUntilNonneg_modeq d _ _)

/-- With enough fuel (or an already nonnegative start) the add loop reaches a
nonnegative value, for a positive dimension. -/
theorem addUntilNonneg_nonneg (d : Int) (hd : 0 < d) :
    ∀ (f : Nat) (x : Int), (x.natAbs < f ∨ 0 ≤ x) → 0 ≤ addUntilNonneg f x d := by
  intro f
  induction f with
  | zero =>
    intro x hx
    simp only [addUntilNonneg]
    omega
  | succ f ih =>
    intro x hx
    simp only [addUntilNonneg]
    split_ifs with hneg
    · exact ih (x + d) (by omega)
    · omega

/-- With enough fuel (or an already in-range start) the subtract loop lands
in `[0, d)`, for a positive dimension and a nonnegative start. -/
theorem subUntilBelow_range (d : Int) (hd : 0 < d) :
    ∀ (f : Nat) (x : Int), 0 ≤ x → (x.natAbs < f ∨ x < d) →
      0 ≤ subUntilBelow f x d ∧ subUntilBelow f x d < d := by
  intro f
  induction f with
  | zero =>
    intro x h0 hx
    simp only [subUntilBelow]
    omega
  | succ f ih =>
    intro x h0 hx
    simp only [subUntilBelow]
    split_ifs with hge
    · exact ih (x - d) (by omega) (by omega)
    · omega

/-- The wrap clamp lands in `[0, d)` for any positive dimension. -/
theorem tilemapWrap_range (x d : Int) (hd : 0 < d) :
    0 ≤ tilemapWrap x d ∧ tilemapWrap x d < d := by
  simp only [tilemapWrap]
  have hy : 0 ≤ addUntilNonneg (x.natAbs + 1) x d :=
    addUntilNonneg_nonneg d hd _ x (by omega)
  exact subUntilBelow_range d hd _ _ hy (Or.inl (by omega))

/-- One key press shifts each offset by its net delta, modulo the
corresponding map dimension. -/
theorem tilemap_handle_key_modeq (rotate : Nat) (step mw mh : Int) (k : TmKey)
    (s : TmState) :
    (tilemap_handle_key rotate step mw mh k s).xoffs ≡
      s.xoffs + tmDeltaX rotate step k [ZMOD mw] ∧
    (tilemap_handle_key rotate step mw mh k s).yoffs ≡
      s.yoffs + tmDeltaY rotate step k [ZMOD mh] := by
  cases k <;> by_cases hs : rotate &&& ORIENTATION_SWAP_XY = 0 <;>
    simp only [tilemap_handle_key, tmDeltaX, tmDeltaY, hs, if_pos, if_neg,
      ite_not, not_true, not_false_iff, ne_eq, not_not] <;>
    simp [hs] <;>
    constructor <;>
    first
      | exact (tilemapWrap_modeq _ _).trans (by rw [sub_eq_add_neg])
      | exact (tilemapWrap_modeq _ _).trans (by rfl)

/-- The up/down (resp. left/right) deltas cancel. -/
theorem tmDelta_cancel (rotate : Nat) (step : Int) :
    tmDeltaX rotate step .up = -(tmDeltaX rotate step .down) ∧
    tmDeltaY rotate step .up = -(tmDeltaY rotate step .down) ∧
    tmDeltaX rotate step .left = -(tmDeltaX rotate step .right) ∧
    tmDeltaY rotate step .left = -(tmDeltaY rotate step .right) := by
  simp only [tmDeltaX, tmDeltaY]
  split_ifs <;> simp

/-- `n` repetitions of one key shift each offset by `n` deltas, modulo the
map dimensions. -/
theorem applyN_key_modeq (rotate : Nat) (step mw mh : Int) (k : TmKey) :
    ∀ (n : Nat) (s : TmState),
      (applyN (tilemap_handle_key rotate step mw mh k) n s).xoffs ≡
        s.xoffs + n * tmDeltaX rotate step k [ZMOD mw] ∧
      (applyN (tilemap_handle_key rotate step mw mh k) n s).yoffs ≡
        s.yoffs + n * tmDeltaY rotate step k [ZMOD mh] := by
  intro n
  induction n with
  | zero =>
    intro s
    simp only [applyN, Nat.cast_zero, zero_mul, add_zero]
    exact ⟨Int.ModEq.refl _, Int.ModEq.refl _⟩
  | succ n ih =>
    intro s
    have h1 := ih (tilemap_handle_key rotate step mw mh k s)
    have h2 := tilemap_handle_key_modeq rotate step mw mh k s
    constructor
    · calc (applyN (tilemap_handle_key rotate step mw mh k) (n + 1) s).xoffs
          = (applyN (tilemap_handle_key rotate step mw mh k) n
              (tilemap_handle_key rotate step mw mh k s)).xoffs := rfl
        _ ≡ (tilemap_handle_key rotate step mw mh k s).xoffs +
              n * tmDeltaX rotate step k [ZMOD mw] := h1.1
        _ ≡ (s.xoffs + tmDeltaX rotate step k) +
              n * tmDeltaX rotate step k [ZMOD mw] := h2.1.add_right _
        _ = s.xoffs + (n + 1 : Nat) * tmDeltaX rotate step k := by push_cast; ring
    · calc (applyN (tilemap_handle_key rotate step mw mh k) (n + 1) s).yoffs
          = (applyN (tilemap_handle_key rotate step mw mh k) n
              (tilemap_handle_key rotate step mw mh k s)).yoffs := rfl
        _ ≡ (tilemap_handle_key rotate step mw mh k s).yoffs +
              n * tmDeltaY rotate step k [ZMOD mh] := h1.2
        _ ≡ (s.yoffs + tmDeltaY rotate step k) +
              n * tmDeltaY rotate step k [ZMOD mh] := h2.2.add_right _
        _ = s.yoffs + (n + 1 : Nat) * tmDeltaY rotate step k := by push_cast; ring

/-- After at least one application, the result is the image of one step. -/
theorem applyN_pos_step (f : α → α) :
    ∀ (n : Nat) (s : α), 0 < n → ∃ y, applyN f n s = f y := by
  intro n
  induction n with
  | zero => intro s h; exact absurd h (by omega)
  | succ n ih =>
    intro s _
    cases Nat.eq_zero_or_pos n with
    | inl h0 => subst h0; exact ⟨s, rfl⟩
    | inr hpos => exact ih (f s)  hpos

/-- One key press leaves both offsets in range, for positive dimensions. -/
theorem tilemap_handle_key_range (rotate : Nat) (step mw mh : Int) (k : TmKey)
    (s : TmState) (hmw : 0 < mw) (hmh : 0 < mh) :
    0 ≤ (tilemap_handle_key rotate step mw mh k s).xoffs ∧
    (tilemap_handle_key rotate step mw mh k s).xoffs < mw ∧
    0 ≤ (tilemap_handle_key rotate step mw mh k s).yoffs ∧
    (tilemap_handle_key rotate step mw mh k s).yoffs < mh := by
  have key : ∀ a b : Int,
      0 ≤ tilemapWrap a mw ∧ tilemapWrap a mw < mw ∧
      0 ≤ tilemapWrap b mh ∧ tilemapWrap b mh < mh := fun a b =>
    ⟨(tilemapWrap_range a mw hmw).1, (tilemapWrap_range a mw hmw).2,
     (tilemapWrap_range b mh hmh).1, (tilemapWrap_range b mh hmh).2⟩
  cases k <;> simp only [tilemap_handle_key] <;> exact key _ _

/-! ### C1 — orientation transform round trip -/

/-- C1, counterexample: for the code `ORIENTATION_SWAP_XY ∣ ORIENTATION_FLIP_X`
(ROT90, code 5) on a non-square 2×3 cell, the transform maps the cell-local
origin to source (0, 2), and mapping back with the same code yields (2, 1),
not the original coordinate: the round trip is not the identity for every
orientation code. -/
theorem orientation_round_trip_cex :
    gfxset_draw_item_transform 2 3 5 0 0 = (0, 2) ∧
    orientationRoundTrip 2 3 5 0 0 = (2, 1) ∧
    ((2, 1) : Nat × Nat) ≠ (0, 0) := by
  decide

/-- C1, amended: for the six orientation codes in which the swap-axes bit is
clear or the two flip bits agree, the transform is its own structural inverse:
the round trip is the identity on every in-range coordinate (including
non-square cells).  For swap-axes with exactly one flip (ROT90/ROT270) the
round trip is a 180° rotation instead, as the counterexample shows. -/
theorem orientation_round_trip_amended (w h rotate x y : Nat)
    (hcode : rotate &&& ORIENTATION_SWAP_XY = 0 ∨
      (rotate &&& ORIENTATION_FLIP_X = 0 ↔ rotate &&& ORIENTATION_FLIP_Y = 0))
    (hx : x < cellW w h rotate) (hy : y < cellH w h rotate) :
    orientationRoundTrip w h rotate x y = (x, y) := by
  by_cases hs : rotate &&& ORIENTATION_SWAP_XY = 0 <;>
  by_cases hfx : rotate &&& ORIENTATION_FLIP_X = 0 <;>
  by_cases hfy : rotate &&& ORIENTATION_FLIP_Y = 0 <;>
  simp_all [orientationRoundTrip, gfxset_draw_item_transform, cellW, cellH,
    Prod.ext_iff] <;>
  omega

/-- C1 witness: the amended theorem applied to the swap-both-flips code on a
non-square 2×3 cell. -/
theorem orientation_round_trip_amended_witness :
    orientationRoundTrip 2 3 7 2 1 = (2, 1) :=
  orientation_round_trip_amended 2 3 7 2 1 (Or.inr (by decide))
    (by decide) (by decide)

/-! ### C7 — tilemap pan round trip -/

/-- C7: for any starting pan offsets, any rotation code, any step size and
any repetition count, `n` Down presses followed by `n` Up presses (and `n`
Right presses followed by `n` Left presses) return both offsets to their
original values modulo the map dimensions; and after at least one key press
both offsets are wrapped into `[0, mapDimension)`. -/
theorem tilemap_pan_round_trip (rotate : Nat) (step mw mh : Int) (n : Nat)
    (s : TmState) (hmw : 0 < mw) (hmh : 0 < mh) :
    ((applyN (tilemap_handle_key rotate step mw mh .up) n
        (applyN (tilemap_handle_key rotate step mw mh .down) n s)).xoffs ≡
      s.xoffs [ZMOD mw]) ∧
    ((applyN (tilemap_handle_key rotate step mw mh .up) n
        (applyN (tilemap_handle_key rotate step mw mh .down) n s)).yoffs ≡
      s.yoffs [ZMOD mh]) ∧
    ((applyN (tilemap_handle_key rotate step mw mh .left) n
        (applyN (tilemap_handle_key rotate step mw mh .right) n s)).xoffs ≡
      s.xoffs [ZMOD mw]) ∧
    ((applyN (tilemap_handle_key rotate step mw mh .left) n
        (applyN (tilemap_handle_key rotate step mw mh .right) n s)).yoffs ≡
      s.yoffs [ZMOD mh]) ∧
    (0 < n →
      0 ≤ (applyN (tilemap_handle_key rotate step mw mh .up) n
            (applyN (tilemap_handle_key rotate step mw mh .down) n s)).xoffs ∧
      (applyN (tilemap_handle_key rotate step mw mh .up) n
        (applyN (tilemap_handle_key rotate step mw mh .down) n s)).xoffs < mw ∧
      0 ≤ (applyN (tilemap_handle_key rotate step mw mh .up) n
            (applyN (tilemap_handle_key rotate step mw mh .down) n s)).yoffs ∧
      (applyN (tilemap_handle_key rotate step mw mh .up) n
        (applyN (tilemap_handle_key rotate step mw mh .down) n s)).yoffs < mh) := by
  have main : ∀ k1 k2 : TmKey,
      tmDeltaX rotate step k2 = -(tmDeltaX rotate step k1) →
      tmDeltaY rotate step k2 = -(tmDeltaY rotate step k1) →
      ((applyN (tilemap_handle_key rotate step mw mh k2) n
          (applyN (tilemap_handle_key rotate step mw mh k1) n s)).xoffs ≡
        s.xoffs [ZMOD mw]) ∧
      ((applyN (tilemap_handle_key rotate step mw mh k2) n
          (applyN (tilemap_handle_key rotate step mw mh k1) n s)).yoffs ≡
        s.yoffs [ZMOD mh]) := by
    intro k1 k2 hdx hdy
    have h1 := applyN_key_modeq rotate step mw mh k1 n s
    have h2 := applyN_key_modeq rotate step mw mh k2 n
      (applyN (tilemap_handle_key rotate step mw mh k1) n s)
    constructor
    · calc (applyN (tilemap_handle_key rotate step mw mh k2) n
            (applyN (tilemap_handle_key rotate step mw mh k1) n s)).xoffs
          ≡ (applyN (tilemap_handle_key rotate step mw mh k1) n s).xoffs +
              n * tmDeltaX rotate step k2 [ZMOD mw] := h2.1
        _ ≡ (s.xoffs + n * tmDeltaX rotate step k1) +
              n * tmDeltaX rotate step k2 [ZMOD mw] := h1.1.add_right _
        _ = s.xoffs := by rw [hdx]; ring
    · calc (applyN (tilemap_handle_key rotate step mw mh k2) n
            (applyN (tilemap_handle_key rotate step mw mh k1) n s)).yoffs
          ≡ (applyN (tilemap_handle_key rotate step mw mh k1) n s).yoffs +
              n * tmDeltaY rotate step k2 [ZMOD mh] := h2.2
        _ ≡ (s.yoffs + n * tmDeltaY rotate step k1) +
              n * tmDeltaY rotate step k2 [ZMOD mh] := h1.2.add_right _
        _ = s.yoffs := by rw [hdy]; ring
  have hc := tmDelta_cancel rotate step
  have hdu := main .down .up hc.1 hc.2.1
  have hrl := main .right .left hc.2.2.1 hc.2.2.2
  refine ⟨hdu.1, hdu.2, hrl.1, hrl.2, fun hn => ?_⟩
  obtain ⟨y, hy⟩ := applyN_pos_step (tilemap_handle_key rotate step mw mh .up) n
    (applyN (tilemap_handle_key rotate step mw mh .down) n s) hn
  rw [hy]
  exact tilemap_handle_key_range rotate step mw mh .up y hmw hmh

/-- C7 witness: two Down presses then two Up presses on a 64×32 map under
ROT90 with step 8, starting from offsets (3, 7). -/
theorem tilemap_pan_round_trip_witness :
    ((applyN (tilemap_handle_key 5 8 64 32 .up) 2
        (applyN (tilemap_handle_key 5 8 64 32 .down) 2 ⟨3, 7⟩)).xoffs ≡
      (3 : Int) [ZMOD 64]) ∧
    ((applyN (tilemap_handle_key 5 8 64 32 .up) 2
        (applyN (tilemap_handle_key 5 8 64 32 .down) 2 ⟨3, 7⟩)).yoffs ≡
      (7 : Int) [ZMOD 32]) ∧
    ((applyN (tilemap_handle_key 5 8 64 32 .left) 2
        (applyN (tilemap_handle_key 5 8 64 32 .right) 2 ⟨3, 7⟩)).xoffs ≡
      (3 : Int) [ZMOD 64]) ∧
    ((applyN (tilemap_handle_key 5 8 64 32 .left) 2
        (applyN (tilemap_handle_key 5 8 64 32 .right) 2 ⟨3, 7⟩)).yoffs ≡
      (7 : Int) [ZMOD 32]) ∧
    (0 ≤ (applyN (tilemap_handle_key 5 8 64 32 .up) 2
          (applyN (tilemap_handle_key 5 8 64 32 .down) 2 ⟨3, 7⟩)).xoffs ∧
     (applyN (tilemap_handle_key 5 8 64 32 .up) 2
        (applyN (tilemap_handle_key 5 8 64 32 .down) 2 ⟨3, 7⟩)).xoffs < 64 ∧
     0 ≤ (applyN (tilemap_handle_key 5 8 64 32 .up) 2
          (applyN (tilemap_handle_key 5 8 64 32 .down) 2 ⟨3, 7⟩)).yoffs ∧
     (applyN (tilemap_handle_key 5 8 64 32 .up) 2
        (applyN (tilemap_handle_key 5 8 64 32 .down) 2 ⟨3, 7⟩)).yoffs < 32) := by
  have h := tilemap_pan_round_trip 5 8 64 32 2 ⟨3, 7⟩ (by decide) (by decide)
  exact ⟨h.1, h.2.1, h.2.2.1, h.2.2.2.1, h.2.2.2.2 (by decide)⟩

/-! ### C4 — palette scroll-offset invariant -/

/-- The final clamp of `palette_handle_keys` lands the offset in
`[0, max 0 (ceil(total/rowcount)*rowcount - rowcount²)]`. -/
theorem palClampOffset_range (o : Int) (rowcount total : Nat) :
    0 ≤ palClampOffset o rowcount total ∧
    palClampOffset o rowcount total ≤
      max 0 (((((total + rowcount - 1) / rowcount) * rowcount : Nat) : Int) -
        (rowcount : Int) * (rowcount : Int)) := by
  simp only [palClampOffset]
  generalize ((total + rowcount - 1) / rowcount) * rowcount = T
  split_ifs <;> omega

/-- C4, counterexample: with a single palette device with zero entries and
the minimum column count 4, the offset after a frame with no keys pressed is
0, which lies outside the claimed interval
`[0, ceil(total/columns)*columns − columns²] = [0, −16]`: the claimed upper
bound is negative for small totals, so the claim as stated fails. -/
theorem palette_offset_invariant_cex :
    ¬ ((palette_handle_keys [⟨0, 0⟩] ⟨0, false, 4, 0⟩
          ⟨false, false, false, false, false, false, false, false, false, false⟩).offset ≤
        ((((0 + 4 - 1) / 4) * 4 : Nat) : Int) - 4 * 4) := by
  decide

/-- C4, amended: after any single invocation of `palette_handle_keys` (hence
after any sequence of navigation operations, each invocation ending with the
same clamps), the scroll offset lies within
`[0, max 0 (ceil(total/columns)*columns − columns²)]`, the total and columns
being those of the resulting state. -/
theorem palette_offset_invariant (m : List PalDevice) (s : PalState) (inp : PalInput) :
    0 ≤ (palette_handle_keys m s inp).offset ∧
    (palette_handle_keys m s inp).offset ≤
      max 0 (((((palTotal m (palette_handle_keys m s inp).devindex
                    (palette_handle_keys m s inp).which +
                  (palette_handle_keys m s inp).columns - 1) /
                  (palette_handle_keys m s inp).columns) *
                  (palette_handle_keys m s inp).columns : Nat) : Int) -
        ((palette_handle_keys m s inp).columns : Int) *
          ((palette_handle_keys m s inp).columns : Int)) := by
  exact palClampOffset_range
    (palNav s.offset (palClampCols (palZoom s.columns inp))
      (palTotal m (palGroup m s.devindex s.which inp).1
        (palGroup m s.devindex s.which inp).2) inp)
    (palClampCols (palZoom s.columns inp))
    (palTotal m (palGroup m s.devindex s.which inp).1
      (palGroup m s.devindex s.which inp).2)

/-! ### C5 — graphics-set layout shrink loop -/

/-- The shrink loop never increases the column count. -/
theorem gfxShrinkAux_fst_le (W S : Nat) : ∀ C, (gfxShrinkAux W S C).1 ≤ C := by
  intro C
  induction C using Nat.strong_induction_on with
  | _ C ih =>
    match C with
    | 0 => simp [gfxShrinkAux]
    | 1 => simp [gfxShrinkAux]
    | x + 2 =>
      simp only [gfxShrinkAux]
      split
      · exact Nat.le_refl _
      · exact Nat.le_trans (ih (x + 1) (by omega)) (by omega)

/-- When one column at scale one fits, the shrink loop's result fits the
available width. -/
theorem gfxShrinkAux_fits (W S : Nat) (hSW : S ≤ W) :
    ∀ C, (gfxShrinkAux W S C).1 * max 1 (gfxShrinkAux W S C).2 * S ≤ W := by
  intro C
  induction C using Nat.strong_induction_on with
  | _ C ih =>
    match C with
    | 0 => simp [gfxShrinkAux]
    | 1 => simp [gfxShrinkAux]; omega
    | x + 2 =>
      simp only [gfxShrinkAux]
      split
      · next hps =>
        have h1 : max 1 (W / (x + 2) / S) = W / (x + 2) / S := by
          generalize W / (x + 2) / S = q at hps ⊢
          omega
        simp only [h1]
        calc (x + 2) * (W / (x + 2) / S) * S
            ≤ (x + 2) * (W / (x + 2)) := by
              rw [Nat.mul_assoc]
              exact Nat.mul_le_mul_left _ (Nat.div_mul_le_self _ _)
          _ ≤ W := by
              rw [Nat.mul_comm]
              exact Nat.div_mul_le_self _ _
      · exact ih (x + 1) (by omega)

/-- C5, counterexample: the fixture `W = 400, C = 16, S = 33` yields
`(finalColumns, pixelScale) = (12, 1)`, not the claimed `(8, 1)`: the loop
stops at the first column count from above whose scale is nonzero, which is
12 (since 400/12 = 33 ≥ 33). -/
theorem gfxset_layout_cex :
    gfxsetLayout 400 16 33 = (12, 1) ∧ (12 : Nat) ≠ 8 := by
  decide

/-- C5, amended: the shrink loop always produces `finalColumns ≤ C` and
`pixelScale ≥ 1`; the bound `finalColumns * pixelScale * S ≤ W` holds
whenever a single column fits at scale one (`S ≤ W`; for `S > W` the floor
at scale 1 exceeds the width); and the fixture `W = 400, C = 16, S = 33`
yields `(12, 1)`. -/
theorem gfxset_layout_amended (W C S : Nat) (hSW : S ≤ W) :
    (gfxsetLayout W C S).1 ≤ C ∧
    1 ≤ (gfxsetLayout W C S).2 ∧
    (gfxsetLayout W C S).1 * (gfxsetLayout W C S).2 * S ≤ W ∧
    gfxsetLayout 400 16 33 = (12, 1) := by
  refine ⟨gfxShrinkAux_fst_le W S C, ?_, gfxShrinkAux_fits W S hSW C, by decide⟩
  simp [gfxsetLayout]

/-- C5 witness: the amended theorem at the fixture. -/
theorem gfxset_layout_amended_witness :
    (gfxsetLayout 400 16 33).1 ≤ 16 ∧
    1 ≤ (gfxsetLayout 400 16 33).2 ∧
    (gfxsetLayout 400 16 33).1 * (gfxsetLayout 400 16 33).2 * 33 ≤ 400 ∧
    gfxsetLayout 400 16 33 = (12, 1) :=
  gfxset_layout_amended 400 16 33 (by decide)

/-! ### C2, C3, C8 — export pipeline -/

/-- The color loop touches neither the RasterCache fields nor the tilemap
selection nor the gfx device index. -/
theorem gfxsaveColors_cache (dev set : Nat) (openOk : Nat → Bool) :
    ∀ (cs : List Nat) (s : UiState) (k : Nat),
      liveCacheView (gfxsaveColors dev set openOk cs s k).1 = liveCacheView s := by
  intro cs
  induction cs with
  | nil => intro s k; rfl
  | cons c cs ih =>
    intro s k
    exact (ih _ (k + 1)).trans rfl

/-- The set loop touches neither the RasterCache fields nor the tilemap
selection nor the gfx device index. -/
theorem gfxsaveSets_cache (m : List GfxDevice) (dev : Nat) (openOk : Nat → Bool) :
    ∀ (sets : List Nat) (s : UiState) (k : Nat),
      liveCacheView (gfxsaveSets m dev openOk sets s k).1 = liveCacheView s := by
  intro sets
  induction sets with
  | nil => intro s k; rfl
  | cons set sets ih =>
    intro s k
    simp only [gfxsaveSets]
    refine (ih _ _).trans ?_
    refine (gfxsaveColors_cache dev set openOk _ _ _).trans ?_
    split_ifs <;> rfl

/-- The palette device loop touches neither the RasterCache fields nor the
tilemap selection nor the gfx device index. -/
theorem palsaveDevices_cache (w : Nat) (openOk : Nat → Bool) :
    ∀ (ps : List Nat) (s : UiState) (k : Nat),
      liveCacheView (palsaveDevices w openOk ps s k).1 = liveCacheView s := by
  intro ps
  induction ps with
  | nil => intro s k; rfl
  | cons p ps ih =>
    intro s k
    exact (ih _ _).trans rfl

/-- The attempted instances of the color loop: one per color, in order,
independent of the threaded state and counter. -/
theorem gfxsaveColors_attempts (dev set : Nat) (openOk : Nat → Bool) :
    ∀ (cs : List Nat) (s : UiState) (k : Nat),
      (gfxsaveColors dev set openOk cs s k).2.2.1 = cs.map fun c => (dev, set, c) := by
  intro cs
  induction cs with
  | nil => intro s k; rfl
  | cons c cs ih =>
    intro s k
    simp only [gfxsaveColors, List.map_cons]
    rw [ih]

/-- The color loop advances the open counter once per color. -/
theorem gfxsaveColors_counter (dev set : Nat) (openOk : Nat → Bool) :
    ∀ (cs : List Nat) (s : UiState) (k : Nat),
      (gfxsaveColors dev set openOk cs s k).2.1 = k + cs.length := by
  intro cs
  induction cs with
  | nil => intro s k; rfl
  | cons c cs ih =>
    intro s k
    simp only [gfxsaveColors, List.length_cons]
    rw [ih]
    omega

/-- The saved (and reported) instances of the color loop are exactly the
attempted instances whose sequential open succeeded. -/
theorem gfxsaveColors_saved (dev set : Nat) (openOk : Nat → Bool) :
    ∀ (cs : List Nat) (s : UiState) (k : Nat),
      (gfxsaveColors dev set openOk cs s k).2.2.2 =
        (((cs.map fun c => (dev, set, c)).enumFrom k).filter fun p => openOk p.1).map
          Prod.snd := by
  intro cs
  induction cs with
  | nil => intro s k; rfl
  | cons c cs ih =>
    intro s k
    simp only [gfxsaveColors, List.map_cons, List.enumFrom, List.filter_cons]
    cases h : openOk k <;> simp [h, ih]

/-- The attempted instances of the set loop: for every listed set, every
color below the 32-cap, independent of the threaded state and counter. -/
theorem gfxsaveSets_attempts (m : List GfxDevice) (dev : Nat) (openOk : Nat → Bool) :
    ∀ (sets : List Nat) (s : UiState) (k : Nat),
      (gfxsaveSets m dev openOk sets s k).2.2.1 =
        sets.flatMap fun set =>
          (List.range
            (min ((m.getD dev ⟨[]⟩).sets.getD set ⟨0, 0, 0, 0, 0, 0, 0⟩).colors 32)).map
            fun c => (dev, set, c) := by
  intro sets
  induction sets with
  | nil => intro s k; rfl
  | cons set sets ih =>
    intro s k
    simp only [gfxsaveSets, List.flatMap_cons]
    rw [gfxsaveColors_attempts, ih]
    have hmin : (if ((m.getD dev ⟨[]⟩).sets.getD set ⟨0, 0, 0, 0, 0, 0, 0⟩).colors > 32
          then 32
          else ((m.getD dev ⟨[]⟩).sets.getD set ⟨0, 0, 0, 0, 0, 0, 0⟩).colors) =
        min ((m.getD dev ⟨[]⟩).sets.getD set ⟨0, 0, 0, 0, 0, 0, 0⟩).colors 32 := by
      split_ifs with h <;> omega
    rw [hmin]

/-- The saved instances of the set loop are exactly its attempted instances
whose sequential open succeeded. -/
theorem gfxsaveSets_saved (m : List GfxDevice) (dev : Nat) (openOk : Nat → Bool) :
    ∀ (sets : List Nat) (s : UiState) (k : Nat),
      (gfxsaveSets m dev openOk sets s k).2.2.2 =
        (((gfxsaveSets m dev openOk sets s k).2.2.1.enumFrom k).filter
          fun p => openOk p.1).map Prod.snd := by
  intro sets
  induction sets with
  | nil => intro s k; rfl
  | cons set sets ih =>
    intro s k
    simp only [gfxsaveSets]
    rw [gfxsaveColors_saved, ih, gfxsaveColors_counter, gfxsaveColors_attempts,
      List.enumFrom_append, List.filter_append, List.map_append,
      List.length_map, List.length_range]

/-- The attempted instances of `gfxset_handle_save`: the sets of the
currently selected device with the 32-capped colors (shared helper). -/
theorem gfxset_handle_save_attempts (m : List GfxDevice) (s : UiState)
    (openOk : Nat → Bool) :
    (gfxset_handle_save m s openOk).2.1 = currentDeviceGfxInstances m s.gfxDevindex := by
  simp only [gfxset_handle_save, currentDeviceGfxInstances]
  rw [gfxsaveSets_attempts]

/-- C2, counterexample: with two enumerated decoder devices, each with one
set of one color, and device 0 selected, the export attempts only the
instance of device 0 — not the claimed instance list covering every device. -/
theorem gfxset_save_iteration_cex :
    (gfxset_handle_save cexGfxMachine cexUiState fun _ => true).2.1 = [(0, 0, 0)] ∧
    claimedGfxInstances cexGfxMachine = [(0, 0, 0), (1, 0, 0)] ∧
    (gfxset_handle_save cexGfxMachine cexUiState fun _ => true).2.1 ≠
      claimedGfxInstances cexGfxMachine := by
  decide

/-- C2, amended: the snapshot export in graphics-set mode iterates every set
of the *currently selected* decoder device only, and for each set iterates
color indices from 0 up to `min(setColorCount, 32)`, one attempted instance
(and one 32-column raster handed to the encoder on a successful open) per
`(set, color)` pair.  Other enumerated devices are not visited. -/
theorem gfxset_save_iteration (m : List GfxDevice) (s : UiState) (openOk : Nat → Bool) :
    (gfxset_handle_save m s openOk).2.1 = currentDeviceGfxInstances m s.gfxDevindex :=
  gfxset_handle_save_attempts m s openOk

/-- C3, counterexample: running the graphics-set export overwrites the
on-screen navigation state — the current set index becomes the last exported
set and the palette device selection is reset to device 0 — so an export does
not leave the navigation/selection state unchanged. -/
theorem export_perturbs_navigation_cex :
    (gfxset_handle_save [⟨[cexGfxElem, cexGfxElem]⟩] cexUiState fun _ => true).1.gfxSet ≠
      cexUiState.gfxSet ∧
    (gfxset_handle_save [⟨[cexGfxElem, cexGfxElem]⟩] cexUiState fun _ => true).1.palDevindex ≠
      cexUiState.palDevindex := by
  decide

/-- C3, amended: both export paths rasterize into their own scratch buffers
and never write the live view's RasterCache — the shared bitmap fields, the
texture handle, and the dirty flag are unchanged, as are the tilemap
selection and the gfx device index — but the exports do overwrite the other
navigation state (palette device index and subset; current gfx set and
per-set colors), as the counterexample shows. -/
theorem export_uses_scratch_buffer (gm : List GfxDevice) (pm : List PalDevice)
    (s : UiState) (openOk : Nat → Bool) :
    liveCacheView (gfxset_handle_save gm s openOk).1 = liveCacheView s ∧
    liveCacheView (palette_handle_save pm s openOk).1 = liveCacheView s := by
  have hupd : ∀ (t : UiState) (w : Nat),
      liveCacheView { t with palWhich := w } = liveCacheView t := fun _ _ => rfl
  constructor
  · simp only [gfxset_handle_save]
    exact gfxsaveSets_cache gm s.gfxDevindex openOk _ s 0
  · simp only [palette_handle_save]
    split_ifs <;> dsimp only <;>
      first
        | exact Eq.trans (palsaveDevices_cache 1 openOk _ _ _)
            (Eq.trans (hupd _ 1)
              (Eq.trans (palsaveDevices_cache 0 openOk _ _ _) (hupd _ 0)))
        | exact Eq.trans (palsaveDevices_cache 0 openOk _ _ _) (hupd _ 0)

/-- The tilemap save loop attempts every listed map. -/
theorem tilemapSaveLoop_attempts (openOk : Nat → Bool) :
    ∀ (l : List Nat) (k : Nat), (tilemapSaveLoop openOk l k).1 = l := by
  intro l
  induction l with
  | nil => intro k; rfl
  | cons mp mps ih =>
    intro k
    simp only [tilemapSaveLoop]
    rw [ih]

/-- The tilemap save loop saves exactly the attempted maps whose sequential
open succeeded. -/
theorem tilemapSaveLoop_saved (openOk : Nat → Bool) :
    ∀ (l : List Nat) (k : Nat),
      (tilemapSaveLoop openOk l k).2 =
        ((l.enumFrom k).filter fun p => openOk p.1).map Prod.snd := by
  intro l
  induction l with
  | nil => intro k; rfl
  | cons mp mps ih =>
    intro k
    simp only [tilemapSaveLoop, List.enumFrom, List.filter_cons]
    cases h : openOk k <;> simp [h, ih]

/-- The palette device loop attempts every listed device, independent of the
threaded state, the counter, and the oracle. -/
theorem palsaveDevices_attempts (w : Nat) (openOk : Nat → Bool) :
    ∀ (ps : List Nat) (s : UiState) (k : Nat),
      (palsaveDevices w openOk ps s k).2.2.1 = ps.map fun p => (w, p) := by
  intro ps
  induction ps with
  | nil => intro s k; rfl
  | cons p ps ih =>
    intro s k
    simp only [palsaveDevices, List.map_cons]
    rw [ih]

/-- The palette device loop reports a subsequence of its attempts. -/
theorem palsaveDevices_reports_sub (w : Nat) (openOk : Nat → Bool) :
    ∀ (ps : List Nat) (s : UiState) (k : Nat),
      ((palsaveDevices w openOk ps s k).2.2.2).Sublist
        ((palsaveDevices w openOk ps s k).2.2.1) := by
  intro ps
  induction ps with
  | nil => intro s k; exact List.Sublist.refl _
  | cons p ps ih =>
    intro s k
    simp only [palsaveDevices]
    cases h : openOk k <;> simp only [h, if_true, if_false, List.nil_append,
      List.singleton_append, Bool.false_eq_true]
    · exact (ih _ _).cons _
    · exact (ih _ _).cons₂ _

/-- The palette device loop never decreases the open counter. -/
theorem palsaveDevices_counter_le (w : Nat) (openOk : Nat → Bool) :
    ∀ (ps : List Nat) (s : UiState) (k : Nat),
      k ≤ (palsaveDevices w openOk ps s k).2.1 := by
  intro ps
  induction ps with
  | nil => intro s k; exact Nat.le_refl _
  | cons p ps ih =>
    intro s k
    simp only [palsaveDevices]
    cases h : openOk k <;> simp only [h, if_true, if_false, Bool.false_eq_true]
    · exact Nat.le_trans (by omega) (ih _ (k + 1))
    · exact Nat.le_trans (by omega) (ih _ (k + 2))

/-- Once the single failing open index is behind the counter, every
remaining device is reported. -/
theorem palsaveDevices_after_failure (w f : Nat) :
    ∀ (ps : List Nat) (s : UiState) (k : Nat), f < k →
      (palsaveDevices w (fun i => decide (i ≠ f)) ps s k).2.2.2 =
        ps.map fun p => (w, p) := by
  intro ps
  induction ps with
  | nil => intro s k _; rfl
  | cons p ps ih =>
    intro s k hfk
    have hk : k ≠ f := by omega
    simp only [palsaveDevices, List.map_cons]
    simp only [hk, decide_True, if_true, List.singleton_append, ne_eq,
      not_false_eq_true]
    rw [ih _ (k + 2) (by omega)]

/-- With an oracle failing exactly one call index, the palette device loop
loses at most one report, and if it loses one the failing index lies below
the final counter (so a later pass sees only succeeding indices). -/
theorem palsaveDevices_single_failure (w f : Nat) :
    ∀ (ps : List Nat) (s : UiState) (k : Nat),
      ps.length - 1 ≤
        ((palsaveDevices w (fun i => decide (i ≠ f)) ps s k).2.2.2).length ∧
      (((palsaveDevices w (fun i => decide (i ≠ f)) ps s k).2.2.2).length <
          ps.length →
        f < (palsaveDevices w (fun i => decide (i ≠ f)) ps s k).2.1) := by
  intro ps
  induction ps with
  | nil =>
    intro s k
    exact ⟨by simp [palsaveDevices], by simp [palsaveDevices]⟩
  | cons p ps ih =>
    intro s k
    by_cases hk : k = f
    · subst hk
      have hd : decide (k ≠ k) = false := by simp
      simp only [palsaveDevices, hd, if_false, List.nil_append, List.length_cons,
        Bool.false_eq_true]
      rw [palsaveDevices_after_failure w k ps _ (k + 1) (by omega)]
      have hc := palsaveDevices_counter_le w (fun i => decide (i ≠ k)) ps
        { s with palDevindex := p } (k + 1)
      constructor
      · simp
      · intro _
        omega
    · have hd : decide (k ≠ f) = true := by simp [hk]
      simp only [palsaveDevices, hd, if_true, List.singleton_append,
        List.length_cons]
      have hih := ih { s with palDevindex := p } (k + 2)
      constructor
      · omega
      · intro hlt
        exact hih.2 (by omega)

/-- Attempts of `palette_handle_save`, as a batch, are independent of the
open oracle (shared helper). -/
theorem palette_handle_save_attempts (m : List PalDevice) (s : UiState)
    (openOk : Nat → Bool) :
    (palette_handle_save m s openOk).2.1 =
      (palette_handle_save m s fun _ => true).2.1 := by
  simp only [palette_handle_save]
  split_ifs <;> dsimp only <;>
    simp only [palsaveDevices_attempts]

/-- With an oracle failing exactly one call index, the whole two-pass
palette batch loses at most one report (shared helper). -/
theorem palette_handle_save_single_failure (m : List PalDevice) (s : UiState)
    (f : Nat) :
    ((palette_handle_save m s fun i => decide (i ≠ f)).2.1).length - 1 ≤
      ((palette_handle_save m s fun i => decide (i ≠ f)).2.2).length := by
  simp only [palette_handle_save]
  split_ifs <;> dsimp only
  case pos h1 h2 =>
    have hm : m = [] := List.length_eq_zero.mp h1
    subst hm
    simp [palDev] at h2
  case pos h1 h2 =>
    have hs1 := palsaveDevices_single_failure 0 f (List.range m.length)
      { s with palWhich := 0 } 0
    have hb1 := (palsaveDevices_reports_sub 0 (fun i => decide (i ≠ f))
      (List.range m.length) { s with palWhich := 0 } 0).length_le
    rw [palsaveDevices_attempts] at hb1
    have ha1 : ((palsaveDevices 0 (fun i => decide (i ≠ f)) (List.range m.length)
        { s with palWhich := 0 } 0).2.2.1).length = m.length := by
      rw [palsaveDevices_attempts]
      simp
    generalize hR1 : palsaveDevices 0 (fun i => decide (i ≠ f))
      (List.range m.length) { s with palWhich := 0 } 0 = r1 at hs1 hb1 ha1 ⊢
    have hs2 := palsaveDevices_single_failure 1 f (List.range m.length)
      { r1.1 with palWhich := 1 } r1.2.1
    simp only [List.length_append, palsaveDevices_attempts, List.length_map,
      List.length_range] at hb1 hs1 hs2 ⊢
    by_cases hloss : (r1.2.2.2).length < m.length
    · have hf := hs1.2 hloss
      rw [palsaveDevices_after_failure 1 f (List.range m.length)
        { r1.1 with palWhich := 1 } r1.2.1 hf]
      simp only [List.length_map, List.length_range]
      omega
    · have hs21 := hs2.1
      omega
  all_goals
    have hs1 := palsaveDevices_single_failure 0 f (List.range m.length)
      { s with palWhich := 0 } 0
    rw [palsaveDevices_attempts]
    simp only [List.length_map, List.length_range] at hs1 ⊢
    exact hs1.1

/-- C8, counterexample, one per export mode with the first open failing: in
graphics-set mode the failed instance `(0,0,0)` is attempted and skipped
*without any diagnostic report* while the next instance is still attempted
and saved; in palette mode device 0's instance is skipped silently and
device 1 is still attempted and reported; in tilemap mode map 0 is skipped
and map 1 still saved.  The claim's parenthetical "with a diagnostic report"
does not hold in any mode. -/
theorem export_open_failure_cex :
    (gfxset_handle_save [⟨[cexGfxElem2]⟩] cexUiState fun k => decide (k ≠ 0)).2.1 =
      [(0, 0, 0), (0, 0, 1)] ∧
    (gfxset_handle_save [⟨[cexGfxElem2]⟩] cexUiState fun k => decide (k ≠ 0)).2.2 =
      [(0, 0, 1)] ∧
    (0, 0, 0) ∉ (gfxset_handle_save [⟨[cexGfxElem2]⟩] cexUiState fun k => decide (k ≠ 0)).2.2 ∧
    (palette_handle_save [⟨2, 0⟩, ⟨2, 0⟩] cexUiState fun k => decide (k ≠ 0)).2.1 =
      [(0, 0), (0, 1)] ∧
    (palette_handle_save [⟨2, 0⟩, ⟨2, 0⟩] cexUiState fun k => decide (k ≠ 0)).2.2 =
      [(0, 1)] ∧
    (0, 0) ∉ (palette_handle_save [⟨2, 0⟩, ⟨2, 0⟩] cexUiState fun k => decide (k ≠ 0)).2.2 ∧
    (tilemap_handle_save 2 fun k => decide (k ≠ 0)).1 = [0, 1] ∧
    (tilemap_handle_save 2 fun k => decide (k ≠ 0)).2 = [1] := by
  decide

/-- C8, amended: during a batch export in any mode, a failure to open the
output file for one instance causes only that instance to be skipped,
silently (no diagnostic is emitted for the failed open); the list of
attempted instances is independent of which opens fail in every mode —
every subsequent instance in the batch is still attempted.  In graphics-set
and tilemap mode the saved/reported instances are exactly the attempted
ones whose own sequential open succeeded; in palette mode the reported
instances are a subsequence of the attempted ones and an oracle failing a
single open call skips at most one instance of the whole two-pass batch. -/
theorem export_open_failure_skips_one (gm : List GfxDevice) (pm : List PalDevice)
    (tilemapCount : Nat) (s : UiState) (openOk : Nat → Bool) (f : Nat) :
    (gfxset_handle_save gm s openOk).2.1 =
      (gfxset_handle_save gm s fun _ => true).2.1 ∧
    (gfxset_handle_save gm s openOk).2.2 =
      (((gfxset_handle_save gm s openOk).2.1.enumFrom 0).filter
        fun p => openOk p.1).map Prod.snd ∧
    (tilemap_handle_save tilemapCount openOk).1 =
      (tilemap_handle_save tilemapCount fun _ => true).1 ∧
    (tilemap_handle_save tilemapCount openOk).2 =
      (((tilemap_handle_save tilemapCount openOk).1.enumFrom 0).filter
        fun p => openOk p.1).map Prod.snd ∧
    (palette_handle_save pm s openOk).2.1 =
      (palette_handle_save pm s fun _ => true).2.1 ∧
    ((palette_handle_save pm s openOk).2.2).Sublist
      ((palette_handle_save pm s openOk).2.1) ∧
    ((palette_handle_save pm s fun i => decide (i ≠ f)).2.1).length - 1 ≤
      ((palette_handle_save pm s fun i => decide (i ≠ f)).2.2).length := by
  refine ⟨?_, ?_, ?_, ?_, ?_, ?_, palette_handle_save_single_failure pm s f⟩
  · rw [gfxset_handle_save_attempts, gfxset_handle_save_attempts]
  · simp only [gfxset_handle_save]
    exact gfxsaveSets_saved gm s.gfxDevindex openOk _ s 0
  · simp only [tilemap_handle_save]
    rw [tilemapSaveLoop_attempts, tilemapSaveLoop_attempts]
  · simp only [tilemap_handle_save]
    rw [tilemapSaveLoop_attempts]
    exact tilemapSaveLoop_saved openOk _ 0
  · exact palette_handle_save_attempts pm s openOk
  · simp only [palette_handle_save]
    split_ifs <;> dsimp only <;>
      first
        | exact (palsaveDevices_reports_sub _ _ _ _ _).append
            (palsaveDevices_reports_sub _ _ _ _ _)
        | exact palsaveDevices_reports_sub _ _ _ _ _

/-! ### C9 — malformed snapshot naming template -/

/-- C9, counterexample: the raw template `"%d_a.%d_x"` contains two
device-substitution tokens, yet with a device `a` mounted with image
`img.bin` the builder does *not* fall back to the default template: the
extension strip (everything from the last `.`) removes the second token
first, so the single-token substitution path runs and produces `img`. -/
theorem snapshot_template_multi_token_cex :
    findSub snapDevTok ['%', 'd', '_', 'a', '.', '%', 'd', '_', 'x'] = some 0 ∧
    findFrom snapDevTok ['%', 'd', '_', 'a', '.', '%', 'd', '_', 'x'] 3 = some 5 ∧
    open_next_file_template ['%', 'd', '_', 'a', '.', '%', 'd', '_', 'x']
        [⟨['a'], some ['i', 'm', 'g', '.', 'b', 'i', 'n']⟩] =
      some ['i', 'm', 'g'] ∧
    some ['i', 'm', 'g'] ≠ some defaultSnapTemplate := by
  decide

/-- C9, amended: when the template *after stripping its extension* still
contains more than one device-substitution token, the builder does not fail:
it discards the malformed template and returns the default template
`%g/%i` (game name plus auto-incrementing index), for every device list.
A `.` between the tokens hides the later tokens from the check, in which
case single-token substitution applies instead, as the counterexample
shows. -/
theorem snapshot_template_multi_token (snap : List Char) (devices : List ImageDevice)
    (p q : Nat)
    (h1 : findSub snapDevTok
      (stripExtension (if snap = [] then defaultSnapTemplate else snap)) = some p)
    (h2 : findFrom snapDevTok
      (stripExtension (if snap = [] then defaultSnapTemplate else snap)) (p + 3) = some q) :
    open_next_file_template snap devices = some defaultSnapTemplate := by
  simp only [open_next_file_template, h1, h2]

/-- C9 witness: the template `"%d_a%d_b"` (no dot, two tokens survive the
strip) falls back to the default template. -/
theorem snapshot_template_multi_token_witness :
    open_next_file_template ['%', 'd', '_', 'a', '%', 'd', '_', 'b'] [] =
      some defaultSnapTemplate :=
  snapshot_template_multi_token ['%', 'd', '_', 'a', '%', 'd', '_', 'b'] [] 0 4
    (by decide) (by decide)

/-! ### C6 — RasterCache ensure -/

/-- C6: the ensure step reallocates exactly when no valid bitmap or texture
exists or the requested dimensions differ from the stored ones; the dirty
flag is forced on reallocation and untouched otherwise; and a second call
with identical dimensions is a no-op that does not reallocate (and hence
does not set the dirty flag). -/
theorem rastercache_ensure_spec (c : RasterCache) (w h : Nat) :
    ((update_bitmap_ensure c w h).2 =
      (!c.valid || !c.hasTexture || decide (c.width ≠ w) || decide (c.height ≠ h))) ∧
    ((update_bitmap_ensure c w h).1.dirty = ((update_bitmap_ensure c w h).2 || c.dirty)) ∧
    update_bitmap_ensure (update_bitmap_ensure c w h).1 w h =
      ((update_bitmap_ensure c w h).1, false) := by
  obtain ⟨v, cw, ch, t, d⟩ := c
  by_cases hw : cw = w <;> by_cases hh : ch = h <;> cases v <;> cases t <;>
    simp [update_bitmap_ensure, hw, hh]

/-! ### C10 — recorded color count and the selected-color clamp -/

/-- The clamp lands in `[0, colorCount - 1]` whenever the count is positive. -/
theorem gfxset_clamp_color_range (c N : Int) (hN : 1 ≤ N) :
    0 ≤ gfxset_clamp_color c N ∧ gfxset_clamp_color c N ≤ N - 1 := by
  simp only [gfxset_clamp_color]
  split_ifs <;> omega

/-- C10: every recorded per-set color count is at least 1 — for a set with no
embedded palette the quotient `defaultEntries / granularity` is forced to 1
when it is zero, and for a set with an embedded palette the collaborator's
color count is assumed positive — hence the selected-color clamp always lands
in the valid range `[0, colorCount - 1]`. -/
theorem color_count_positive (defaultEntries : Nat) (g : GfxSlot) (c : Int)
    (hemb : g.hasPalette = true → 1 ≤ g.colors) :
    1 ≤ count_devices_color_count defaultEntries g ∧
    0 ≤ gfxset_clamp_color c (count_devices_color_count defaultEntries g) ∧
    gfxset_clamp_color c (count_devices_color_count defaultEntries g) ≤
      (count_devices_color_count defaultEntries g : Int) - 1 := by
  have hcc : 1 ≤ count_devices_color_count defaultEntries g := by
    unfold count_devices_color_count
    cases hp : g.hasPalette with
    | true => simpa using hemb hp
    | false =>
      simp only [Bool.false_eq_true, if_false]
      generalize defaultEntries / g.granularity = q
      split_ifs <;> omega
  have hN : (1 : Int) ≤ (count_devices_color_count defaultEntries g : Int) := by
    exact_mod_cast hcc
  exact ⟨hcc, (gfxset_clamp_color_range c _ hN).1, (gfxset_clamp_color_range c _ hN).2⟩

/-- C10 witness: a set with no embedded palette whose quotient is zero
(3 entries at granularity 7) records a color count of 1, and the clamp pulls
the selected color 5 back into range. -/
theorem color_count_positive_witness :
    1 ≤ count_devices_color_count 3 ⟨false, 0, 7⟩ ∧
    0 ≤ gfxset_clamp_color 5 (count_devices_color_count 3 ⟨false, 0, 7⟩) ∧
    gfxset_clamp_color 5 (count_devices_color_count 3 ⟨false, 0, 7⟩) ≤
      (count_devices_color_count 3 ⟨false, 0, 7⟩ : Int) - 1 :=
  color_count_positive 3 ⟨false, 0, 7⟩ 5 (by decide)

end Viewgfx
